import Mathlib

/-!
Verification of the maelstrom-worker slice: a shallow embedding of the
worker's startup checks, artifact fetcher, broker connection and layer
building code (crates/maelstrom-worker/src), with theorems settling the
specification claims about them.

Machine integers are modelled as `Nat` with explicit wrap-around modulo
`2 ^ 64` where the Rust code computes in `u64`/`usize`.
-/

namespace Maelstrom

/-- Modulus of Rust `u64` arithmetic (and of `usize` on the 64-bit targets
the worker runs on). -/
def U64_MOD : Nat := 2 ^ 64

/-- Wrapping `u64` addition. -/
def u64add (a b : Nat) : Nat := (a + b) % U64_MOD

/-- Wrapping `u64` multiplication. -/
def u64mul (a b : Nat) : Nat := (a * b) % U64_MOD

/-- Wrapping `u64` subtraction. -/
def u64sub (a b : Nat) : Nat := (U64_MOD + a - b) % U64_MOD

theorem u64add_eq_of_lt {a b : Nat} (h : a + b < U64_MOD) : u64add a b = a + b :=
  Nat.mod_eq_of_lt h

theorem u64mul_eq_of_lt {a b : Nat} (h : a * b < U64_MOD) : u64mul a b = a * b :=
  Nat.mod_eq_of_lt h

theorem u64sub_eq_of_le {a b : Nat} (hba : b ≤ a) (ha : a < U64_MOD) :
    u64sub a b = a - b := by
  unfold u64sub U64_MOD at *
  omega

/-- Constant `MAX_PENDING_LAYERS_BUILDS` from
`crates/maelstrom-worker/src/lib.rs`. -/
def lib.MAX_PENDING_LAYERS_BUILDS : Nat := 10

/-- Constant `MAX_ARTIFACT_FETCHES` from
`crates/maelstrom-worker/src/lib.rs` (the limit handed to the fetcher
factories in `start_dispatcher_task`, in particular to the large-object /
GitHub fetcher). -/
def lib.MAX_ARTIFACT_FETCHES : Nat := 1

/-- Constant `MAX_ARTIFACT_FETCHES` from
`crates/maelstrom-worker/src/artifact_fetcher.rs`, the semaphore limit of
the TCP-transport artifact fetcher defined in that file. -/
def artifact_fetcher.MAX_ARTIFACT_FETCHES : Nat := 10

/-- Constants imported by `open_file_max` from the `maelstrom-layer-fs` and
`maelstrom-fuse` crates (`READER_CACHE_SIZE`, `LAYER_BUILDING_FILE_MAX`,
`MAX_PENDING`).  Those crates' definitions of the constants are not part of
this slice, so the embedding is parametric in their values. -/
structure LayerFsConsts where
  READER_CACHE_SIZE : Nat
  LAYER_BUILDING_FILE_MAX : Nat
  MAX_PENDING : Nat
deriving DecidableEq, Repr

/-- `open_file_max` from `crates/maelstrom-worker/src/lib.rs`: the worker's
estimate of how many files it can have open for a given slot count, computed
in `u64` arithmetic.  `slots` is the `u16` slot count widened to `u64`. -/
def open_file_max (c : LayerFsConsts) (slots : Nat) : Nat :=
  let existing_open_files : Nat := 3
  let per_slot_estimate : Nat := u64add 6 c.MAX_PENDING
  u64add
    (u64add
      (u64add
        (u64add existing_open_files (u64mul c.READER_CACHE_SIZE 2))
        lib.MAX_ARTIFACT_FETCHES)
      (u64mul per_slot_estimate slots))
    (u64mul lib.MAX_PENDING_LAYERS_BUILDS c.LAYER_BUILDING_FILE_MAX)

/-- `round_to_multiple` from `crates/maelstrom-worker/src/lib.rs`. -/
def round_to_multiple (n k : Nat) : Nat :=
  if n % k = 0 then n else u64add n (u64sub k (n % k))

/-- The error message `check_open_file_limit` bails with (its `{estimate}`
interpolation applied to the rounded estimate). -/
def openFileLimitMsg (estimate : Nat) : String :=
  "Open file limit is too low. Increase limit by running `ulimit -n "
    ++ toString estimate ++ "`"

/-- `check_open_file_limit` from `crates/maelstrom-worker/src/lib.rs`.
`rlimit_current` stands for the `current` field of the successful
`getrlimit(NoFile)` call. -/
def check_open_file_limit (c : LayerFsConsts) (rlimit_current slots extra : Nat) :
    Except String Unit :=
  let estimate := u64add (open_file_max c slots) extra
  if rlimit_current < estimate then
    Except.error (openFileLimitMsg (round_to_multiple estimate 1024))
  else
    Except.ok ()

/-- The estimate of the spec's formula, in exact (non-wrapping) arithmetic:
`3 + 2·READER_CACHE_SIZE + MAX_ARTIFACT_FETCHES + per_slot_estimate·slots +
MAX_PENDING_LAYERS_BUILDS·LAYER_BUILDING_FILE_MAX + extra`, with
`per_slot_estimate = 6 + MAX_PENDING`. -/
def openFileEstimateSpec (c : LayerFsConsts) (slots extra : Nat) : Nat :=
  3 + 2 * c.READER_CACHE_SIZE + lib.MAX_ARTIFACT_FETCHES
    + (6 + c.MAX_PENDING) * slots
    + lib.MAX_PENDING_LAYERS_BUILDS * c.LAYER_BUILDING_FILE_MAX + extra

theorem open_file_estimate_eq (c : LayerFsConsts) (slots extra : Nat)
    (h : openFileEstimateSpec c slots extra < U64_MOD) :
    u64add (open_file_max c slots) extra = openFileEstimateSpec c slots extra := by
  unfold openFileEstimateSpec at h
  have hR : u64mul c.READER_CACHE_SIZE 2 = c.READER_CACHE_SIZE * 2 :=
    u64mul_eq_of_lt (by omega)
  have hL : u64mul lib.MAX_PENDING_LAYERS_BUILDS c.LAYER_BUILDING_FILE_MAX
      = lib.MAX_PENDING_LAYERS_BUILDS * c.LAYER_BUILDING_FILE_MAX :=
    u64mul_eq_of_lt (by unfold lib.MAX_PENDING_LAYERS_BUILDS at *; omega)
  have hslot : u64mul (u64add 6 c.MAX_PENDING) slots = (6 + c.MAX_PENDING) * slots := by
    rcases Nat.eq_zero_or_pos slots with hz | hpos
    · subst hz
      simp [u64mul]
    · have hps : 6 + c.MAX_PENDING ≤ (6 + c.MAX_PENDING) * slots :=
        Nat.le_mul_of_pos_right _ hpos
      have h1 : u64add 6 c.MAX_PENDING = 6 + c.MAX_PENDING :=
        u64add_eq_of_lt (by omega)
      rw [h1]
      exact u64mul_eq_of_lt (by omega)
  unfold open_file_max openFileEstimateSpec
  dsimp only
  rw [hR, hslot, hL]
  simp only [u64add, U64_MOD] at *
  omega

theorem round_to_multiple_least (n k : Nat) (hk : 0 < k) (hkm : k < U64_MOD)
    (hfit : (if n % k = 0 then n else n + (k - n % k)) < U64_MOD) :
    k ∣ round_to_multiple n k ∧ n ≤ round_to_multiple n k ∧
      ∀ m, k ∣ m → n ≤ m → round_to_multiple n k ≤ m := by
  unfold round_to_multiple
  by_cases h0 : n % k = 0
  · simp only [if_pos h0]
    exact ⟨Nat.dvd_of_mod_eq_zero h0, Nat.le_refl n, fun m _ hm => hm⟩
  · have hmod : n % k < k := Nat.mod_lt _ hk
    have hsub : u64sub k (n % k) = k - n % k := u64sub_eq_of_le (Nat.le_of_lt hmod) hkm
    have hfit' : n + (k - n % k) < U64_MOD := by
      simpa [if_neg h0] using hfit
    have hadd : u64add n (k - n % k) = n + (k - n % k) := u64add_eq_of_lt hfit'
    simp only [if_neg h0, hsub, hadd]
    have hdm := Nat.div_add_mod n k
    refine ⟨⟨n / k + 1, ?_⟩, Nat.le_add_right _ _, ?_⟩
    · rw [Nat.mul_succ]
      omega
    · intro m hdvd hnm
      obtain ⟨q, rfl⟩ := hdvd
      have hq : n / k < q := by
        by_contra hle
        push_neg at hle
        have hmul : k * q ≤ k * (n / k) := Nat.mul_le_mul_left k hle
        omega
      have hmul : k * (n / k + 1) ≤ k * q := Nat.mul_le_mul_left k hq
      rw [Nat.mul_succ] at hmul
      omega

/-- Actions `main_inner` (`crates/maelstrom-worker/src/lib.rs`) performs
before handing control to the dispatcher, in program order.  The open-file
preflight check is the first statement of `main_inner` (called with
`extra = 0`); its `?` makes a failed check return before `connect` runs. -/
inductive WorkerAction where
  | checkFileLimit
  | connectBroker
  | spawnBrokerTasks
  | runDispatcher
deriving DecidableEq, Repr

/-- Startup action trace of `main_inner` from
`crates/maelstrom-worker/src/lib.rs`: `check_open_file_limit(log, slots, 0)?`
then `ConnectionT::connect(...)?` then spawning the broker read/write and
signal tasks and running the dispatcher. -/
def main_inner_actions (c : LayerFsConsts) (rlimit_current slots : Nat)
    (connectOk : Bool) : List WorkerAction :=
  match check_open_file_limit c rlimit_current slots 0 with
  | Except.error _ => [WorkerAction.checkFileLimit]
  | Except.ok _ =>
    if connectOk then
      [WorkerAction.checkFileLimit, WorkerAction.connectBroker,
        WorkerAction.spawnBrokerTasks, WorkerAction.runDispatcher]
    else
      [WorkerAction.checkFileLimit, WorkerAction.connectBroker]

/-- C1: `check_open_file_limit(log, slots, extra)` succeeds exactly when the
current open-file rlimit is at least the estimate
`3 + 2·READER_CACHE_SIZE + MAX_ARTIFACT_FETCHES + per_slot_estimate·slots +
MAX_PENDING_LAYERS_BUILDS·LAYER_BUILDING_FILE_MAX + extra`; otherwise it
returns the error telling the user to raise the limit with `ulimit -n`; and
`main_inner` runs this check first, connecting to the broker (accepting any
work) only if it passed. -/
theorem check_open_file_limit_spec (c : LayerFsConsts) (cur slots extra : Nat)
    (hfit : openFileEstimateSpec c slots extra < U64_MOD) :
    (check_open_file_limit c cur slots extra = Except.ok () ↔
      openFileEstimateSpec c slots extra ≤ cur) ∧
    (cur < openFileEstimateSpec c slots extra →
      check_open_file_limit c cur slots extra =
        Except.error (openFileLimitMsg
          (round_to_multiple (openFileEstimateSpec c slots extra) 1024))) ∧
    (∀ connectOk, cur < openFileEstimateSpec c slots 0 →
      main_inner_actions c cur slots connectOk = [WorkerAction.checkFileLimit]) ∧
    (∀ connectOk,
      WorkerAction.connectBroker ∈ main_inner_actions c cur slots connectOk →
      openFileEstimateSpec c slots 0 ≤ cur) := by
  have he := open_file_estimate_eq c slots extra hfit
  have hfit0 : openFileEstimateSpec c slots 0 < U64_MOD := by
    unfold openFileEstimateSpec at *
    omega
  have he0 := open_file_estimate_eq c slots 0 hfit0
  refine ⟨?_, ?_, ?_, ?_⟩
  · unfold check_open_file_limit
    dsimp only
    rw [he]
    by_cases hcur : cur < openFileEstimateSpec c slots extra
    · simp [hcur, Nat.not_le.mpr hcur]
    · simp [hcur, Nat.le_of_not_lt hcur]
  · intro hcur
    unfold check_open_file_limit
    dsimp only
    rw [he]
    simp [hcur]
  · intro connectOk hcur
    unfold main_inner_actions check_open_file_limit
    dsimp only
    rw [he0]
    simp [hcur]
  · intro connectOk hmem
    by_contra hlt
    push_neg at hlt
    unfold main_inner_actions check_open_file_limit at hmem
    dsimp only at hmem
    rw [he0] at hmem
    simp [hlt] at hmem

/-- Witness for C1 at concrete inputs: with all external constants 1 and one
slot the estimate is 23, so the check passes for rlimit 100, and with
rlimit 0 the startup trace stops at the preflight check. -/
theorem check_open_file_limit_spec_witness :
    check_open_file_limit ⟨1, 1, 1⟩ 100 1 0 = Except.ok () ∧
    main_inner_actions ⟨1, 1, 1⟩ 0 1 true = [WorkerAction.checkFileLimit] := by
  constructor
  · exact (check_open_file_limit_spec ⟨1, 1, 1⟩ 100 1 0 (by decide)).1.mpr (by decide)
  · exact (check_open_file_limit_spec ⟨1, 1, 1⟩ 0 1 0 (by decide)).2.2.1 true (by decide)

/-- C10: for `k > 0` with the result in `u64` range, `round_to_multiple n k`
is the least multiple of `k` that is at least `n`; and the value shown in
the open-file-limit error message is the estimate rounded up to the next
multiple of 1024. -/
theorem round_to_multiple_spec (n k : Nat) (hk : 0 < k) (hkm : k < U64_MOD)
    (hfit : (if n % k = 0 then n else n + (k - n % k)) < U64_MOD) :
    (k ∣ round_to_multiple n k ∧ n ≤ round_to_multiple n k ∧
      ∀ m, k ∣ m → n ≤ m → round_to_multiple n k ≤ m) ∧
    ∀ (c : LayerFsConsts) (cur slots extra : Nat),
      cur < u64add (open_file_max c slots) extra →
      check_open_file_limit c cur slots extra =
        Except.error (openFileLimitMsg
          (round_to_multiple (u64add (open_file_max c slots) extra) 1024)) := by
  refine ⟨round_to_multiple_least n k hk hkm hfit, ?_⟩
  intro c cur slots extra hcur
  unfold check_open_file_limit
  dsimp only
  simp [hcur]

/-- Witness for C10 at concrete inputs: `round_to_multiple 5 3 = 6`, the
least multiple of 3 that is at least 5. -/
theorem round_to_multiple_spec_witness :
    round_to_multiple 5 3 = 6 ∧ 3 ∣ round_to_multiple 5 3 ∧
      5 ≤ round_to_multiple 5 3 := by
  have h := (round_to_multiple_spec 5 3 (by decide) (by decide) (by decide)).1
  exact ⟨by decide, h.1, h.2.1⟩

/-- The TCP-transport `ArtifactFetcher` of
`crates/maelstrom-worker/src/artifact_fetcher.rs`: the fields the semaphore
bound depends on.  `broker_addr` is abstracted to a numeric address and the
logger and channel handles are omitted; `semaphoreLimit` is the count the
constructor passes to `Semaphore::new`. -/
structure ArtifactFetcher where
  broker_addr : Nat
  semaphoreLimit : Nat
deriving DecidableEq, Repr

/-- `ArtifactFetcher::new` from
`crates/maelstrom-worker/src/artifact_fetcher.rs`: the semaphore is created
with `MAX_ARTIFACT_FETCHES` (of that file) permits. -/
def ArtifactFetcher.new (broker_addr : Nat) : ArtifactFetcher :=
  { broker_addr, semaphoreLimit := artifact_fetcher.MAX_ARTIFACT_FETCHES }

/-- Modelled from the spec: `GitHubArtifactFetcher` (the large-object /
GitHub-queue transport fetcher, whose definition is not under `src/`; only
its construction in `lib.rs` is).  Per the spec its pool is "bounded by a
counting semaphore", so its constructor records the
`max_simultaneous_fetches` it is given as the semaphore limit. -/
structure GitHubArtifactFetcher where
  semaphoreLimit : Nat
deriving DecidableEq, Repr

/-- Modelled from the spec: `GitHubArtifactFetcher::new` stores the given
maximum as the counting-semaphore limit. -/
def GitHubArtifactFetcher.new (max_simultaneous_fetches : Nat) : GitHubArtifactFetcher :=
  { semaphoreLimit := max_simultaneous_fetches }

/-- The fetcher limit `start_dispatcher_task`
(`crates/maelstrom-worker/src/lib.rs`) hands the GitHub fetcher factory:
`max_simultaneous_fetches` converted from `lib.rs`'s
`MAX_ARTIFACT_FETCHES`. -/
def start_dispatcher_task_github_fetcher : GitHubArtifactFetcher :=
  GitHubArtifactFetcher.new lib.MAX_ARTIFACT_FETCHES

/-- State of the counting semaphore (`std_semaphore::Semaphore`) bounding an
artifact fetcher pool, together with the fetch population: how many spawned
fetch threads are still waiting for a permit, how many hold a permit and are
streaming from the broker, and how many have finished (released their
permit). -/
structure PoolState where
  limit : Nat
  waiting : Nat
  streaming : Nat
  finished : Nat
deriving DecidableEq, Repr

/-- Concurrency steps of the fetcher pool: `start_artifact_fetch` spawns a
new fetch thread; a waiting thread acquires a permit (`semaphore.access()`)
only when fewer than `limit` permits are held; a streaming thread finishes
and drops its permit. -/
inductive PoolStep : PoolState → PoolState → Prop where
  | start (s : PoolState) :
      PoolStep s ⟨s.limit, s.waiting + 1, s.streaming, s.finished⟩
  | acquire (s : PoolState) (hw : 0 < s.waiting) (hl : s.streaming < s.limit) :
      PoolStep s ⟨s.limit, s.waiting - 1, s.streaming + 1, s.finished⟩
  | release (s : PoolState) (hs : 0 < s.streaming) :
      PoolStep s ⟨s.limit, s.waiting, s.streaming - 1, s.finished + 1⟩

/-- Pool states reachable from the idle pool with `limit` permits. -/
def PoolReachable (limit : Nat) (s : PoolState) : Prop :=
  Relation.ReflTransGen PoolStep ⟨limit, 0, 0, 0⟩ s

/-- C2: the artifact fetcher pool is bounded by a counting semaphore whose
limit is `MAX_ARTIFACT_FETCHES` = 10 for the TCP transport
(`artifact_fetcher.rs`) and 1 for the large-object GitHub transport (the
`lib.rs` constant passed to its factory); in every reachable state of a pool
with limit `n`, at most `n` fetches are streaming from the broker. -/
theorem artifact_fetcher_semaphore_bound :
    artifact_fetcher.MAX_ARTIFACT_FETCHES = 10 ∧
    lib.MAX_ARTIFACT_FETCHES = 1 ∧
    (∀ a, (ArtifactFetcher.new a).semaphoreLimit = 10) ∧
    start_dispatcher_task_github_fetcher.semaphoreLimit = 1 ∧
    ∀ n s, PoolReachable n s → s.limit = n ∧ s.streaming ≤ n := by
  refine ⟨rfl, rfl, fun a => rfl, rfl, ?_⟩
  intro n s h
  induction h with
  | refl => exact ⟨rfl, Nat.zero_le n⟩
  | tail _ step ih =>
    obtain ⟨hlim, hstr⟩ := ih
    cases step with
    | start => exact ⟨hlim, hstr⟩
    | acquire hw hl =>
      refine ⟨hlim, ?_⟩
      dsimp only
      omega
    | release hs =>
      refine ⟨hlim, ?_⟩
      dsimp only
      omega

/-- Result of one artifact fetch: the `ArtifactFetchCompleted` messages sent
to the dispatcher and the number of semaphore permits acquired and
released.  Temp files are abstracted to numeric identifiers, errors to
strings. -/
structure FetchOutcome where
  messages : List (Nat × Except String Nat)
  permitsAcquired : Nat
  permitsReleased : Nat
deriving Repr

/-- `main` from `crates/maelstrom-worker/src/artifact_fetcher.rs` (invoked
by `start_artifact_fetch`): `tempFileResult` is the outcome of
`temp_file_factory.temp_file()`, and `streamResult tf` the outcome of
`fetcher::main` streaming the blob into temp file `tf`.  On a temp-file
error the failure message is sent directly (no permit ever taken); otherwise
the spawned thread holds a permit for the duration of the stream and sends
the completion message, and the permit guard drops on both exits. -/
def artifact_fetch_run (tempFileResult : Except String Nat)
    (streamResult : Nat → Except String Unit) (digest : Nat) : FetchOutcome :=
  match tempFileResult with
  | Except.error err =>
    { messages := [(digest, Except.error err)]
      permitsAcquired := 0
      permitsReleased := 0 }
  | Except.ok temp_file =>
    match streamResult temp_file with
    | Except.ok _ =>
      { messages := [(digest, Except.ok temp_file)]
        permitsAcquired := 1
        permitsReleased := 1 }
    | Except.error err =>
      { messages := [(digest, Except.error err)]
        permitsAcquired := 1
        permitsReleased := 1 }

/-- C3: every invocation of `start_artifact_fetch(digest)` sends exactly one
`ArtifactFetchCompleted(digest, _)` message to the dispatcher; the message
carries `Ok(temp_file)` exactly when both acquiring the temp file and
streaming the blob succeeded, and an error when either step failed; and each
run releases exactly as many semaphore permits as it acquires. -/
theorem start_artifact_fetch_spec (tempFileResult : Except String Nat)
    (streamResult : Nat → Except String Unit) (digest : Nat) :
    (artifact_fetch_run tempFileResult streamResult digest).messages.length = 1 ∧
    (∀ msg ∈ (artifact_fetch_run tempFileResult streamResult digest).messages,
      msg.1 = digest) ∧
    (∀ tf, (artifact_fetch_run tempFileResult streamResult digest).messages
        = [(digest, Except.ok tf)] ↔
      tempFileResult = Except.ok tf ∧ streamResult tf = Except.ok ()) ∧
    (artifact_fetch_run tempFileResult streamResult digest).permitsAcquired =
      (artifact_fetch_run tempFileResult streamResult digest).permitsReleased := by
  rcases htf : tempFileResult with err | tf
  · simp only [artifact_fetch_run, htf]
    refine ⟨by trivial, ?_, ?_, by trivial⟩
    · intro msg hmsg
      simp only [List.mem_singleton] at hmsg
      simp [hmsg]
    · intro tf
      simp
  · rcases hst : streamResult tf with err | u
    · simp only [artifact_fetch_run, htf, hst]
      refine ⟨by trivial, ?_, ?_, by trivial⟩
      · intro msg hmsg
        simp only [List.mem_singleton] at hmsg
        simp [hmsg]
      · intro tf'
        constructor
        · intro h
          simp at h
        · rintro ⟨h1, h2⟩
          obtain rfl : tf = tf' := by injection h1
          rw [hst] at h2
          cases h2
    · simp only [artifact_fetch_run, htf, hst]
      refine ⟨by trivial, ?_, ?_, by trivial⟩
      · intro msg hmsg
        simp only [List.mem_singleton] at hmsg
        simp [hmsg]
      · intro tf'
        constructor
        · intro h
          simp only [List.cons.injEq, Prod.mk.injEq] at h
          obtain ⟨⟨_, heq⟩, _⟩ := h
          obtain rfl : tf = tf' := by injection heq
          exact ⟨rfl, hst⟩
        · rintro ⟨h1, h2⟩
          obtain rfl : tf = tf' := by injection h1
          rfl

/-- Messages on the dispatcher's channel
(`crates/maelstrom-worker/src/dispatcher.rs` interface as used by `lib.rs`
and `connection.rs`): broker messages, artifact-fetch completions and the
shutdown message carrying a fatal error. -/
inductive DispatcherMsg where
  | broker (m : Nat)
  | artifactFetchCompleted (digest : Nat) (result : Except String Nat)
  | shutDown (err : String)

/-- `shutdown_on_error` from `crates/maelstrom-worker/src/lib.rs`: awaits
the wrapped future and, exactly when it returned an error, sends
`Message::ShutDown(error)` on the dispatcher channel (a failed send is
ignored).  The returned list is the sequence of messages sent. -/
def shutdown_on_error (futResult : Except String Unit) : List DispatcherMsg :=
  match futResult with
  | Except.error e => [DispatcherMsg.shutDown e]
  | Except.ok _ => []

/-- `wait_for_signal` from `crates/maelstrom-worker/src/lib.rs`: always
resolves to the error `"signal {signal}"` once a signal arrives. -/
def wait_for_signal (signal : Nat) : Except String Unit :=
  Except.error ("signal " ++ toString signal)

/-- The messages the three supervised tasks of `main_inner` (broker read,
broker write, signal waiter) send to the dispatcher channel: each task is
wrapped in `shutdown_on_error`.  `sig` is `some s` when a signal `s` was
received (in which case the signal task finishes with its error) and `none`
while no signal arrived (the task is still pending and sends nothing). -/
def supervised_task_msgs (readResult writeResult : Except String Unit)
    (sig : Option Nat) : List DispatcherMsg :=
  shutdown_on_error readResult ++ shutdown_on_error writeResult ++
    (match sig with
     | some s => shutdown_on_error (wait_for_signal s)
     | none => [])

/-- C5: whenever the broker read task, the broker write task, or the
signal task finishes with an error (a received signal is translated to an
error), a `ShutDown` message carrying that error is sent to the dispatcher
channel, and every message these supervision wrappers send is a `ShutDown`
carrying the error of a failed task. -/
theorem shutdown_on_error_spec (readResult writeResult : Except String Unit)
    (sig : Option Nat) :
    (∀ e, readResult = Except.error e →
      DispatcherMsg.shutDown e ∈ supervised_task_msgs readResult writeResult sig) ∧
    (∀ e, writeResult = Except.error e →
      DispatcherMsg.shutDown e ∈ supervised_task_msgs readResult writeResult sig) ∧
    (∀ s, sig = some s →
      DispatcherMsg.shutDown ("signal " ++ toString s)
        ∈ supervised_task_msgs readResult writeResult sig) ∧
    (∀ msg ∈ supervised_task_msgs readResult writeResult sig,
      ∃ e, msg = DispatcherMsg.shutDown e ∧
        (readResult = Except.error e ∨ writeResult = Except.error e ∨
          ∃ s, sig = some s ∧ e = "signal " ++ toString s)) := by
  refine ⟨?_, ?_, ?_, ?_⟩
  · intro e he
    subst he
    simp [supervised_task_msgs, shutdown_on_error]
  · intro e he
    subst he
    rcases readResult with e' | u
    · simp [supervised_task_msgs, shutdown_on_error]
    · simp [supervised_task_msgs, shutdown_on_error]
  · intro s hs
    subst hs
    rcases readResult with e' | u <;> rcases writeResult with e'' | u' <;>
      simp [supervised_task_msgs, shutdown_on_error, wait_for_signal]
  · intro msg hmsg
    unfold supervised_task_msgs at hmsg
    rcases List.mem_append.mp hmsg with h12 | h3
    · rcases List.mem_append.mp h12 with h1 | h2
      · rcases hr : readResult with e | u
        · rw [hr] at h1
          simp only [shutdown_on_error, List.mem_singleton] at h1
          exact ⟨e, h1, Or.inl rfl⟩
        · rw [hr] at h1
          simp [shutdown_on_error] at h1
      · rcases hw : writeResult with e | u
        · rw [hw] at h2
          simp only [shutdown_on_error, List.mem_singleton] at h2
          exact ⟨e, h2, Or.inr (Or.inl rfl)⟩
        · rw [hw] at h2
          simp [shutdown_on_error] at h2
    · rcases hs : sig with _ | s
      · rw [hs] at h3
        simp at h3
      · rw [hs] at h3
        simp only [shutdown_on_error, wait_for_signal, List.mem_singleton] at h3
        exact ⟨"signal " ++ toString s, h3, Or.inr (Or.inr ⟨s, rfl, rfl⟩)⟩

/-- Witness for C5 at concrete inputs: a failed read task and SIGTERM (15)
both surface as `ShutDown` messages. -/
theorem shutdown_on_error_spec_witness :
    DispatcherMsg.shutDown "boom"
        ∈ supervised_task_msgs (Except.error "boom") (Except.ok ()) (some 15) ∧
      DispatcherMsg.shutDown ("signal " ++ toString 15)
        ∈ supervised_task_msgs (Except.error "boom") (Except.ok ()) (some 15) :=
  ⟨(shutdown_on_error_spec (Except.error "boom") (Except.ok ()) (some 15)).1 "boom" rfl,
    (shutdown_on_error_spec (Except.error "boom") (Except.ok ()) (some 15)).2.2.1 15 rfl⟩

/-- `env_or_error` from `crates/maelstrom-worker/src/lib.rs`: reads an
environment variable, mapping absence to the error
`"{key} environment variable missing"`.  The process environment is
abstracted as a lookup function. -/
def env_or_error (env : String → Option String) (key : String) : Except String String :=
  match env key with
  | some v => Except.ok v
  | none => Except.error (key ++ " environment variable missing")

/-- Modelled from the spec: `GitHubClient` (crate `maelstrom-github`, not
under `src/`).  Per the spec's environment contract only the two variables
matter, so the client is the token plus the parsed base URL and
`GitHubClient::new` always succeeds on them. -/
structure GitHubClient where
  token : String
  base_url : Nat

/-- Modelled from the spec: `GitHubClient::new` from the token and parsed
base URL. -/
def GitHubClient.new (token : String) (base_url : Nat) : GitHubClient :=
  { token, base_url }

/-- `github_client_factory` from `crates/maelstrom-worker/src/lib.rs`.
URL parsing (`url::Url::parse`, external crate) is abstracted as the
`parse` argument returning a numeric URL identifier or a parse error. -/
def github_client_factory (env : String → Option String)
    (parse : String → Except String Nat) : Except String GitHubClient := do
  let token ← env_or_error env "ACTIONS_RUNTIME_TOKEN"
  let base_url ← parse (← env_or_error env "ACTIONS_RESULTS_URL")
  Except.ok (GitHubClient.new token base_url)

/-- `start_dispatcher_task` from `crates/maelstrom-worker/src/lib.rs`, on
the GitHub artifact-transfer strategy branch: `github_client_factory()?` is
the first fallible step, so a factory error fails worker startup with that
error. -/
def start_dispatcher_task_github (env : String → Option String)
    (parse : String → Except String Nat) : Except String Unit := do
  let _ ← github_client_factory env parse
  Except.ok ()

/-- C6: for the GitHub transport, absence of `ACTIONS_RUNTIME_TOKEN` or
`ACTIONS_RESULTS_URL` makes the client factory fail with an error naming
the missing variable, and worker startup (the dispatcher-task setup) fails
with the same error; when both are present and the URL parses, the factory
succeeds. -/
theorem github_client_factory_spec (env : String → Option String)
    (parse : String → Except String Nat) :
    (env "ACTIONS_RUNTIME_TOKEN" = none →
      github_client_factory env parse =
        Except.error "ACTIONS_RUNTIME_TOKEN environment variable missing") ∧
    (∀ t, env "ACTIONS_RUNTIME_TOKEN" = some t → env "ACTIONS_RESULTS_URL" = none →
      github_client_factory env parse =
        Except.error "ACTIONS_RESULTS_URL environment variable missing") ∧
    (∀ t u url, env "ACTIONS_RUNTIME_TOKEN" = some t →
      env "ACTIONS_RESULTS_URL" = some u → parse u = Except.ok url →
      github_client_factory env parse = Except.ok (GitHubClient.new t url)) ∧
    (∀ e, github_client_factory env parse = Except.error e →
      start_dispatcher_task_github env parse = Except.error e) := by
  refine ⟨?_, ?_, ?_, ?_⟩
  · intro h
    simp [github_client_factory, env_or_error, h, Bind.bind, Except.bind]
  · intro t ht hu
    simp [github_client_factory, env_or_error, ht, hu, Bind.bind, Except.bind]
  · intro t u url ht hu hp
    simp [github_client_factory, env_or_error, ht, hu, hp, Bind.bind, Except.bind]
  · intro e he
    simp [start_dispatcher_task_github, he, Bind.bind, Except.bind]

/-- Witness for C6 at concrete inputs: the empty environment is missing
`ACTIONS_RUNTIME_TOKEN` and the factory reports exactly that; with both
variables set and a parsing URL the factory succeeds. -/
theorem github_client_factory_spec_witness :
    github_client_factory (fun _ => none) (fun _ => Except.ok 0) =
        Except.error "ACTIONS_RUNTIME_TOKEN environment variable missing" ∧
      github_client_factory
          (fun k => if k = "ACTIONS_RUNTIME_TOKEN" then some "tok" else some "u")
          (fun _ => Except.ok 7) =
        Except.ok (GitHubClient.new "tok" 7) :=
  ⟨(github_client_factory_spec (fun _ => none) (fun _ => Except.ok 0)).1 rfl,
    (github_client_factory_spec _ _).2.2.1 "tok" "u" 7 (by simp) (by simp) rfl⟩

/-- Messages written on the worker-to-broker direction of the connection:
the `Hello::Worker { slots }` handshake and the serialized broker-bound
messages pulled from the dispatcher's outgoing channel (abstracted to
numeric identifiers). -/
inductive WireMsg where
  | helloWorker (slots : Nat)
  | brokerMsg (m : Nat)
deriving DecidableEq, Repr

/-- `<TcpStream as BrokerConnection>::connect` from
`crates/maelstrom-worker/src/connection.rs`: TCP connect may fail (nothing
written), then `Hello::Worker { slots: slots.into_inner().into() }` is
written with `net::write_message_to_async_socket` (which may fail; a failed
write delivers no message).  Returns the messages written and the
result. -/
def tcp_connect (connectOk helloWriteOk : Bool) (slots : Nat) :
    List WireMsg × Except String Unit :=
  if !connectOk then ([], Except.error "error connecting to broker")
  else if !helloWriteOk then ([], Except.error "error writing Hello")
  else ([WireMsg.helloWorker slots], Except.ok ())

/-- `<GitHubQueue as BrokerConnection>::connect` from
`crates/maelstrom-worker/src/connection.rs`: builds the GitHub client via
`github_client_factory`, connects the queue, then writes
`serialize(Hello::Worker { slots })` with `write_msg`. -/
def github_connect (factoryResult : Except String GitHubClient)
    (queueOk helloWriteOk : Bool) (slots : Nat) :
    List WireMsg × Except String Unit :=
  match factoryResult with
  | Except.error e => ([], Except.error e)
  | Except.ok _ =>
    if !queueOk then ([], Except.error "error connecting to broker")
    else if !helloWriteOk then ([], Except.error "error writing Hello")
    else ([WireMsg.helloWorker slots], Except.ok ())

/-- The write loop shared by both write connections: take the messages of
the broker-outgoing channel in order; write each (`writeOk i` tells whether
the `i`-th write succeeds); stop with the error on the first failed write.
Returns the messages actually written, in write order, and the result. -/
def write_messages_loop (writeOk : Nat → Bool) :
    List Nat → Nat → List WireMsg × Except String Unit
  | [], _ => ([], Except.ok ())
  | m :: rest, i =>
    if writeOk i then
      let r := write_messages_loop writeOk rest (i + 1)
      (WireMsg.brokerMsg m :: r.1, r.2)
    else
      ([], Except.error "error sending message")

/-- `<GitHubWriteQueue as BrokerWriteConnection>::write_messages` from
`crates/maelstrom-worker/src/connection.rs`: a `while let` loop receiving
from the channel and calling `write_msg(serialize(msg))`, returning the
first write error. -/
def GitHubWriteQueue.write_messages (writeOk : Nat → Bool) (msgs : List Nat) :
    List WireMsg × Except String Unit :=
  write_messages_loop writeOk msgs 0

/-- Modelled from the spec: `net::async_socket_writer` (crate
`maelstrom-util`, not under `src/`), the body of the TCP
`write_messages`, "pulls from an unbounded sender and emits frames" with
"broker-outbound messages written in the order the dispatcher emits
them". -/
def tcp_write_messages (writeOk : Nat → Bool) (msgs : List Nat) :
    List WireMsg × Except String Unit :=
  write_messages_loop writeOk msgs 0

/-- The worker's whole outbound trace on one broker connection: the writes
`connect` performed, then — when `connect` succeeded — the writes of the
write-side task. -/
def worker_outbound (connectResult : List WireMsg × Except String Unit)
    (writeOk : Nat → Bool) (outgoing : List Nat) : List WireMsg :=
  match connectResult with
  | (ws, Except.ok _) => ws ++ (write_messages_loop writeOk outgoing 0).1
  | (ws, Except.error _) => ws

theorem write_messages_loop_all_broker (writeOk : Nat → Bool) :
    ∀ (msgs : List Nat) (i : Nat),
      ∀ m ∈ (write_messages_loop writeOk msgs i).1, ∃ b, m = WireMsg.brokerMsg b := by
  intro msgs
  induction msgs with
  | nil =>
    intro i m hm
    simp [write_messages_loop] at hm
  | cons a rest ih =>
    intro i m hm
    by_cases hw : writeOk i
    · simp only [write_messages_loop, if_pos hw, List.mem_cons] at hm
      rcases hm with rfl | hm
      · exact ⟨a, rfl⟩
      · exact ih (i + 1) m hm
    · simp [write_messages_loop, if_neg hw] at hm

theorem write_messages_loop_take (writeOk : Nat → Bool) :
    ∀ (msgs : List Nat) (i : Nat),
      ∃ k, (write_messages_loop writeOk msgs i).1 =
        (msgs.take k).map WireMsg.brokerMsg := by
  intro msgs
  induction msgs with
  | nil =>
    intro i
    exact ⟨0, rfl⟩
  | cons a rest ih =>
    intro i
    by_cases hw : writeOk i
    · obtain ⟨k, hk⟩ := ih (i + 1)
      refine ⟨k + 1, ?_⟩
      simp [write_messages_loop, if_pos hw, hk]
    · exact ⟨0, by simp [write_messages_loop, if_neg hw]⟩

theorem write_messages_loop_all_ok (writeOk : Nat → Bool)
    (hok : ∀ i, writeOk i = true) :
    ∀ (msgs : List Nat) (i : Nat),
      (write_messages_loop writeOk msgs i).1 = msgs.map WireMsg.brokerMsg := by
  intro msgs
  induction msgs with
  | nil =>
    intro i
    rfl
  | cons a rest ih =>
    intro i
    simp [write_messages_loop, hok i, ih (i + 1)]

/-- C4: on both transports, whatever the worker writes on the broker
connection starts with `Hello::Worker { slots }` — the trace is either
empty (connect failed before anything was written) or `Hello` followed
exclusively by broker-outgoing messages — and when `connect` succeeds the
handshake has been written first. -/
theorem hello_worker_first (connectOk helloWriteOk queueOk ghHelloWriteOk : Bool)
    (factoryResult : Except String GitHubClient) (slots : Nat)
    (writeOk : Nat → Bool) (outgoing : List Nat) :
    (worker_outbound (tcp_connect connectOk helloWriteOk slots) writeOk outgoing ≠ [] →
      (worker_outbound (tcp_connect connectOk helloWriteOk slots) writeOk
          outgoing).head? = some (WireMsg.helloWorker slots)) ∧
    (∀ m ∈ (worker_outbound (tcp_connect connectOk helloWriteOk slots) writeOk
        outgoing).tail, ∃ b, m = WireMsg.brokerMsg b) ∧
    (connectOk = true → helloWriteOk = true →
      (worker_outbound (tcp_connect connectOk helloWriteOk slots) writeOk
          outgoing).head? = some (WireMsg.helloWorker slots)) ∧
    (worker_outbound (github_connect factoryResult queueOk ghHelloWriteOk slots)
        writeOk outgoing ≠ [] →
      (worker_outbound (github_connect factoryResult queueOk ghHelloWriteOk slots)
          writeOk outgoing).head? = some (WireMsg.helloWorker slots)) ∧
    (∀ m ∈ (worker_outbound (github_connect factoryResult queueOk ghHelloWriteOk
        slots) writeOk outgoing).tail, ∃ b, m = WireMsg.brokerMsg b) ∧
    (∀ client, factoryResult = Except.ok client → queueOk = true →
      ghHelloWriteOk = true →
      (worker_outbound (github_connect factoryResult queueOk ghHelloWriteOk slots)
          writeOk outgoing).head? = some (WireMsg.helloWorker slots)) := by
  have hbk := write_messages_loop_all_broker writeOk outgoing 0
  refine ⟨?_, ?_, ?_, ?_, ?_, ?_⟩
  · intro hne
    rcases connectOk with _ | _ <;> rcases helloWriteOk with _ | _ <;>
      simp [worker_outbound, tcp_connect] at hne ⊢
  · intro m hm
    rcases connectOk with _ | _ <;> rcases helloWriteOk with _ | _ <;>
      simp only [worker_outbound, tcp_connect, Bool.not_true, Bool.not_false,
        if_true, if_false, List.nil_append, List.tail_cons, List.tail_nil] at hm
    · exact absurd hm (List.not_mem_nil m)
    · exact absurd hm (List.not_mem_nil m)
    · exact absurd hm (List.not_mem_nil m)
    · exact hbk m (by simpa using hm)
  · intro hc hh
    subst hc
    subst hh
    simp [worker_outbound, tcp_connect]
  · intro hne
    rcases factoryResult with e | client
    · simp [worker_outbound, github_connect] at hne
    · rcases queueOk with _ | _ <;> rcases ghHelloWriteOk with _ | _ <;>
        simp [worker_outbound, github_connect] at hne ⊢
  · intro m hm
    rcases factoryResult with e | client
    · simp [worker_outbound, github_connect] at hm
    · rcases queueOk with _ | _ <;> rcases ghHelloWriteOk with _ | _ <;>
        simp only [worker_outbound, github_connect, Bool.not_true, Bool.not_false,
          if_true, if_false, List.nil_append, List.tail_cons, List.tail_nil] at hm
      · exact absurd hm (List.not_mem_nil m)
      · exact absurd hm (List.not_mem_nil m)
      · exact absurd hm (List.not_mem_nil m)
      · exact hbk m (by simpa using hm)
  · intro client hf hq hh
    subst hf
    subst hq
    subst hh
    simp [worker_outbound, github_connect]

/-- Witness for C4 at concrete inputs: with both connects succeeding, the
first message of the outbound trace is `Hello::Worker { slots = 2 }` on
both transports. -/
theorem hello_worker_first_witness :
    (worker_outbound (tcp_connect true true 2) (fun _ => true) [7]).head?
        = some (WireMsg.helloWorker 2) ∧
      (worker_outbound (github_connect (Except.ok (GitHubClient.new "t" 0)) true
          true 2) (fun _ => true) [7]).head? = some (WireMsg.helloWorker 2) :=
  ⟨(hello_worker_first true true true true (Except.ok (GitHubClient.new "t" 0)) 2
      (fun _ => true) [7]).2.2.1 rfl rfl,
    (hello_worker_first true true true true (Except.ok (GitHubClient.new "t" 0)) 2
      (fun _ => true) [7]).2.2.2.2.2 (GitHubClient.new "t" 0) rfl rfl rfl⟩

/-- C9: the write side writes the dispatcher's broker-outgoing messages one
at a time in channel order on both transports: the written trace is always
an order-preserving prefix of the emitted sequence, and when every write
succeeds it is exactly the emitted sequence. -/
theorem write_messages_order (writeOk : Nat → Bool) (msgs : List Nat) :
    (∃ k, (GitHubWriteQueue.write_messages writeOk msgs).1 =
      (msgs.take k).map WireMsg.brokerMsg) ∧
    ((∀ i, writeOk i = true) →
      (GitHubWriteQueue.write_messages writeOk msgs).1 =
        msgs.map WireMsg.brokerMsg) ∧
    (∃ k, (tcp_write_messages writeOk msgs).1 =
      (msgs.take k).map WireMsg.brokerMsg) ∧
    ((∀ i, writeOk i = true) →
      (tcp_write_messages writeOk msgs).1 = msgs.map WireMsg.brokerMsg) :=
  ⟨write_messages_loop_take writeOk msgs 0,
    fun hok => write_messages_loop_all_ok writeOk hok msgs 0,
    write_messages_loop_take writeOk msgs 0,
    fun hok => write_messages_loop_all_ok writeOk hok msgs 0⟩

/-- Witness for C9 at concrete inputs: three messages are written in
exactly the channel order on the GitHub queue transport. -/
theorem write_messages_order_witness :
    (GitHubWriteQueue.write_messages (fun _ => true) [4, 5, 6]).1 =
      [WireMsg.brokerMsg 4, WireMsg.brokerMsg 5, WireMsg.brokerMsg 6] := by
  have h := (write_messages_order (fun _ => true) [4, 5, 6]).2.1 (fun _ => rfl)
  simpa using h

/-- `main_inner` from `crates/maelstrom-worker/src/lib.rs`, as a result
value: the open-file preflight (`?`), then `ConnectionT::connect` (`?`),
then — after spawning the supervised tasks — the final expression
`Err(start_dispatcher_task(..)?.await?)`: the dispatcher task resolves to
the `Error` its loop broke with (`dispatcher_err`), and `main_inner` wraps
it in `Err`.  There is no `Ok` exit. -/
def main_inner_result (c : LayerFsConsts) (rlimit_current slots : Nat)
    (connect : Except String Unit) (dispatcher_err : String) :
    Except String Unit :=
  match check_open_file_limit c rlimit_current slots 0 with
  | Except.error e => Except.error e
  | Except.ok _ =>
    match connect with
    | Except.error e => Except.error e
    | Except.ok _ => Except.error dispatcher_err

/-- `main` from `crates/maelstrom-worker/src/lib.rs`: runs `main_inner`,
takes its error with `unwrap_err()`, logs the one `error!(log, "exiting")`
line and returns `Err(err)`.  The first component is the list of diagnostic
lines emitted; the (dead) `Ok` branch mirrors `unwrap_err`'s panic
impossibility. -/
def worker_main (c : LayerFsConsts) (rlimit_current slots : Nat)
    (connect : Except String Unit) (dispatcher_err : String) :
    List String × Except String Unit :=
  match main_inner_result c rlimit_current slots connect dispatcher_err with
  | Except.error err => (["exiting error=" ++ err], Except.error err)
  | Except.ok _ => ([], Except.ok ())

/-- C7 (counterexample): on an orderly signal-initiated shutdown — the
preflight passes, the connection succeeds, and the dispatcher terminates
with the `ShutDown` error `"signal 15"` from SIGTERM — the worker's `main`
does not return `Ok`: the code has no clean-shutdown exit-0 path. -/
theorem worker_main_clean_shutdown_not_ok :
    (worker_main ⟨1, 1, 1⟩ 100 1 (Except.ok ()) "signal 15").2 ≠ Except.ok () := by
  have h : (worker_main ⟨1, 1, 1⟩ 100 1 (Except.ok ()) "signal 15").2
      = Except.error "signal 15" := rfl
  rw [h]
  intro hcontra
  exact Except.noConfusion hcontra

/-- C7 (amended): the worker's `main` always returns `Err` — every
termination, including signal-initiated shutdown, is treated as a fatal
error — and it emits exactly one single-line diagnostic naming that error,
so the process exits non-zero on every termination. -/
theorem worker_main_always_err (c : LayerFsConsts) (cur slots : Nat)
    (connect : Except String Unit) (dispatcher_err : String) :
    ∃ e, main_inner_result c cur slots connect dispatcher_err = Except.error e ∧
      worker_main c cur slots connect dispatcher_err =
        (["exiting error=" ++ e], Except.error e) := by
  rcases hchk : check_open_file_limit c cur slots 0 with e | u
  · exact ⟨e, by simp [main_inner_result, hchk],
      by simp [worker_main, main_inner_result, hchk]⟩
  · rcases hcon : connect with e | u'
    · exact ⟨e, by simp [main_inner_result, hchk, hcon],
        by simp [worker_main, main_inner_result, hchk, hcon]⟩
    · exact ⟨dispatcher_err, by simp [main_inner_result, hchk, hcon],
        by simp [worker_main, main_inner_result, hchk, hcon]⟩

/-- The accumulation loop of `dir_size` from
`crates/maelstrom-worker/src/layer_fs.rs`: `total: u64` starts at 0 and
each directory entry contributes `e?.metadata().await?.len()` via
`total += ...`, a wrapping `u64` addition; the first entry or metadata
error short-circuits. -/
def dir_size_loop : Nat → List (Except String Nat) → Except String Nat
  | total, [] => Except.ok total
  | total, e :: rest =>
    match e with
    | Except.error err => Except.error err
    | Except.ok len => dir_size_loop (u64add total len) rest

/-- `dir_size` from `crates/maelstrom-worker/src/layer_fs.rs`.  `readDir`
is the outcome of `fs.read_dir(path)`: an error, or the directory's entries
in iteration order, each carrying the combined entry/metadata result with
the entry's byte length. -/
def dir_size (readDir : Except String (List (Except String Nat))) :
    Except String Nat :=
  match readDir with
  | Except.error e => Except.error e
  | Except.ok entries => dir_size_loop 0 entries

/-- Environment of one `build_bottom_layer` call
(`crates/maelstrom-worker/src/layer_fs.rs`).  The builder steps come from
`maelstrom-fuse`/`maelstrom-util`, which are not under `src/`, so they are
modelled from the spec as outcome parameters: `BottomLayerBuilder::new`,
`fs.open_file(artifact_path)`, `add_from_tar` (`builder.finish()` is
infallible and its result unused).  `layerDirEntries` is the read of
`layer_path`'s directory after the build. -/
structure BottomLayerEnv where
  builderNew : Except String Unit
  openArtifactFile : Except String Unit
  addFromTar : Except String Unit
  layerDirEntries : Except String (List (Except String Nat))

/-- `build_bottom_layer` from `crates/maelstrom-worker/src/layer_fs.rs`:
builder construction, opening the artifact, streaming the tar, then
`dir_size(&fs, &layer_path)` as the returned accounting size. -/
def build_bottom_layer (env : BottomLayerEnv) : Except String Nat := do
  let _ ← env.builderNew
  let _ ← env.openArtifactFile
  let _ ← env.addFromTar
  dir_size env.layerDirEntries

/-- Environment of one `build_upper_layer` call
(`crates/maelstrom-worker/src/layer_fs.rs`): outcomes of
`LayerFs::from_path` on the lower and upper layer, `UpperLayerBuilder::new`
and `fill_from_bottom_layer` (all from crates outside `src/`, modelled from
the spec), plus the read of `layer_path`'s directory after the build. -/
structure UpperLayerEnv where
  fromPathLower : Except String Unit
  fromPathUpper : Except String Unit
  builderNew : Except String Unit
  fillFromBottom : Except String Unit
  layerDirEntries : Except String (List (Except String Nat))

/-- `build_upper_layer` from `crates/maelstrom-worker/src/layer_fs.rs`. -/
def build_upper_layer (env : UpperLayerEnv) : Except String Nat := do
  let _ ← env.fromPathLower
  let _ ← env.fromPathUpper
  let _ ← env.builderNew
  let _ ← env.fillFromBottom
  dir_size env.layerDirEntries

theorem dir_size_loop_ok_iff :
    ∀ (es : List (Except String Nat)) (t v : Nat),
      dir_size_loop t es = Except.ok v ↔
        ∃ ns : List Nat, es = ns.map Except.ok ∧ v = ns.foldl u64add t := by
  intro es
  induction es with
  | nil =>
    intro t v
    constructor
    · intro h
      simp only [dir_size_loop, Except.ok.injEq] at h
      exact ⟨[], rfl, by simp [h]⟩
    · rintro ⟨ns, hns, hv⟩
      have hnil : ns = [] := by
        cases ns with
        | nil => rfl
        | cons n ns' => simp at hns
      subst hnil
      simp only [List.foldl_nil] at hv
      subst hv
      rfl
  | cons e rest ih =>
    intro t v
    cases e with
    | error err =>
      constructor
      · intro h
        simp [dir_size_loop] at h
      · rintro ⟨ns, hns, hv⟩
        cases ns with
        | nil => simp at hns
        | cons n ns' => simp at hns
    | ok len =>
      constructor
      · intro h
        simp only [dir_size_loop] at h
        obtain ⟨ns', hrest, hv⟩ := (ih (u64add t len) v).mp h
        exact ⟨len :: ns', by simp [hrest], by simpa using hv⟩
      · rintro ⟨ns, hns, hv⟩
        cases ns with
        | nil => simp at hns
        | cons n ns' =>
          simp only [List.map_cons, List.cons.injEq] at hns
          obtain ⟨hn, hrest⟩ := hns
          obtain rfl : len = n := by injection hn
          simp only [dir_size_loop]
          refine (ih (u64add t len) v).mpr ⟨ns', hrest, ?_⟩
          simpa using hv

theorem foldl_u64add_eq_sum (ns : List Nat) :
    ∀ t, t + ns.sum < U64_MOD → ns.foldl u64add t = t + ns.sum := by
  induction ns with
  | nil =>
    intro t _
    simp
  | cons n rest ih =>
    intro t h
    simp only [List.sum_cons] at h
    have hadd : u64add t n = t + n := u64add_eq_of_lt (by omega)
    simp only [List.foldl_cons, hadd]
    rw [ih (t + n) (by omega)]
    simp only [List.sum_cons]
    omega

/-- The exact (unbounded) total length of the directory entries a
`fs.read_dir` outcome carries: the sum of the `len`s of the successful
entries, 0 for errors.  Used to state that the directory's total size fits
in `u64`, so the code's wrapping accumulation computes the exact sum. -/
def dirEntriesSum (readDir : Except String (List (Except String Nat))) : Nat :=
  match readDir with
  | Except.error _ => 0
  | Except.ok es =>
    (es.map (fun e =>
      match e with
      | Except.ok n => n
      | Except.error _ => 0)).sum

theorem dirEntriesSum_map_ok (ns : List Nat) :
    dirEntriesSum (Except.ok (ns.map Except.ok)) = ns.sum := by
  induction ns with
  | nil => rfl
  | cons n rest ih =>
    simp only [dirEntriesSum, List.map_cons, List.map_map, List.sum_cons] at *
    rw [ih]

theorem dir_size_ok_iff (readDir : Except String (List (Except String Nat)))
    (v : Nat) (hfit : dirEntriesSum readDir < U64_MOD) :
    dir_size readDir = Except.ok v ↔
      ∃ ns : List Nat, readDir = Except.ok (ns.map Except.ok) ∧ v = ns.sum := by
  cases readDir with
  | error e =>
    constructor
    · intro h
      simp [dir_size] at h
    · rintro ⟨ns, hns, hv⟩
      cases hns
  | ok entries =>
    simp only [dir_size]
    constructor
    · intro h
      obtain ⟨ns, hns, hv⟩ := (dir_size_loop_ok_iff entries 0 v).mp h
      subst hns
      rw [dirEntriesSum_map_ok] at hfit
      refine ⟨ns, rfl, ?_⟩
      rw [hv, foldl_u64add_eq_sum ns 0 (by omega)]
      omega
    · rintro ⟨ns, hns, hv⟩
      obtain rfl : entries = ns.map Except.ok := by
        injection hns
      rw [dirEntriesSum_map_ok] at hfit
      refine (dir_size_loop_ok_iff _ 0 v).mpr ⟨ns, rfl, ?_⟩
      rw [foldl_u64add_eq_sum ns 0 (by omega)]
      omega

/-- C8: when the built layer directory's total size fits in `u64` (so the
code's wrapping `u64` accumulation computes the exact total),
`build_bottom_layer` and `build_upper_layer` return on success the total
byte size of the built layer directory — the sum of the sizes of the
directory's entries — and succeed exactly when every build step and the
directory read succeed. -/
theorem build_layer_size_spec (envB : BottomLayerEnv) (envU : UpperLayerEnv)
    (v w : Nat) (hfitB : dirEntriesSum envB.layerDirEntries < U64_MOD)
    (hfitU : dirEntriesSum envU.layerDirEntries < U64_MOD) :
    (build_bottom_layer envB = Except.ok v ↔
      envB.builderNew = Except.ok () ∧ envB.openArtifactFile = Except.ok () ∧
      envB.addFromTar = Except.ok () ∧
      ∃ ns : List Nat, envB.layerDirEntries = Except.ok (ns.map Except.ok) ∧
        v = ns.sum) ∧
    (build_upper_layer envU = Except.ok w ↔
      envU.fromPathLower = Except.ok () ∧ envU.fromPathUpper = Except.ok () ∧
      envU.builderNew = Except.ok () ∧ envU.fillFromBottom = Except.ok () ∧
      ∃ ns : List Nat, envU.layerDirEntries = Except.ok (ns.map Except.ok) ∧
        w = ns.sum) := by
  constructor
  · rcases h1 : envB.builderNew with e | u
    · simp [build_bottom_layer, h1, Bind.bind, Except.bind]
    · rcases h2 : envB.openArtifactFile with e | u
      · simp [build_bottom_layer, h1, h2, Bind.bind, Except.bind]
      · rcases h3 : envB.addFromTar with e | u
        · simp [build_bottom_layer, h1, h2, h3, Bind.bind, Except.bind]
        · have hiff := dir_size_ok_iff envB.layerDirEntries v hfitB
          simp [build_bottom_layer, h1, h2, h3, Bind.bind, Except.bind, hiff]
  · rcases h1 : envU.fromPathLower with e | u
    · simp [build_upper_layer, h1, Bind.bind, Except.bind]
    · rcases h2 : envU.fromPathUpper with e | u
      · simp [build_upper_layer, h1, h2, Bind.bind, Except.bind]
      · rcases h3 : envU.builderNew with e | u
        · simp [build_upper_layer, h1, h2, h3, Bind.bind, Except.bind]
        · rcases h4 : envU.fillFromBottom with e | u
          · simp [build_upper_layer, h1, h2, h3, h4, Bind.bind, Except.bind]
          · have hiff := dir_size_ok_iff envU.layerDirEntries w hfitU
            simp [build_upper_layer, h1, h2, h3, h4, Bind.bind, Except.bind, hiff]

/-- Witness for C8 at concrete inputs: with all build steps succeeding and
layer directories of entry sizes 2+3 and 3+4 bytes (totals well within
`u64`), the builders return 5 and 7. -/
theorem build_layer_size_spec_witness :
    build_bottom_layer ⟨Except.ok (), Except.ok (), Except.ok (),
        Except.ok [Except.ok 2, Except.ok 3]⟩ = Except.ok 5 ∧
      build_upper_layer ⟨Except.ok (), Except.ok (), Except.ok (), Except.ok (),
        Except.ok [Except.ok 3, Except.ok 4]⟩ = Except.ok 7 := by
  have h := build_layer_size_spec
    ⟨Except.ok (), Except.ok (), Except.ok (), Except.ok [Except.ok 2, Except.ok 3]⟩
    ⟨Except.ok (), Except.ok (), Except.ok (), Except.ok (),
      Except.ok [Except.ok 3, Except.ok 4]⟩
    5 7 (by decide) (by decide)
  exact ⟨h.1.mpr ⟨rfl, rfl, rfl, [2, 3], rfl, by decide⟩,
    h.2.mpr ⟨rfl, rfl, rfl, rfl, [3, 4], rfl, by decide⟩⟩

end Maelstrom
